import Mathlib

/-
Verification of the response-pane component of the insomnia repository
(src/app/ui/components/ResponsePane.js): the response loader
`_getResponse`, the body exporter `_handleDownloadResponseBody`, and the
viewer-prop computation of `render`, shallowly embedded in Lean 4.

Host collaborators (Electron dialog, Node fs, console, analytics) are
modelled as an explicit effect trace; asynchronous resolution of the
storage lookup is modelled as an explicit event schedule.
-/

/-- A stored HTTP response, as read by the component (the fields the
component accesses: body payload, its textual encoding tag, content type,
headers, status, timing, byte count, parent request id, creation time,
and the optional error string). -/
structure Response where
  _id : String
  parentId : String
  createdAt : Nat
  url : String
  statusCode : Nat
  statusMessage : String
  elapsedTime : Nat
  bytesRead : Nat
  body : String
  encoding : String
  contentType : String
  headers : List (String × String)
  error : Option String
deriving Repr, DecidableEq

/-- A request, of which the component only uses the unique identifier
(`request._id`). -/
structure Request where
  _id : String
deriving Repr, DecidableEq

/-- JavaScript truthiness of an optional string value: `undefined`/`null`
and the empty string are falsy, every other string is truthy. -/
def strTruthy : Option String → Bool
  | none => false
  | some s => s ≠ ""

/-- Value of one base64 alphabet character, none for a non-alphabet
character (padding `=` included). -/
def b64Val (c : Char) : Option Nat :=
  if 'A' ≤ c ∧ c ≤ 'Z' then some (c.toNat - 65)
  else if 'a' ≤ c ∧ c ≤ 'z' then some (c.toNat - 97 + 26)
  else if '0' ≤ c ∧ c ≤ '9' then some (c.toNat - 48 + 52)
  else if c = '+' then some 62
  else if c = '/' then some 63
  else none

/-- Reassemble 6-bit base64 values into 8-bit bytes, four values giving
three bytes, with a trailing group of 3 or 2 values giving 2 or 1 bytes. -/
def b64Groups : List Nat → List Nat
  | a :: b :: c :: d :: rest =>
      (a * 4 + b / 16) :: ((b % 16) * 16 + c / 4) :: ((c % 4) * 64 + d) :: b64Groups rest
  | [a, b, c] => [a * 4 + b / 16, (b % 16) * 16 + c / 4]
  | [a, b] => [a * 4 + b / 16]
  | _ => []

/-- Base64-decode a string to bytes, ignoring padding and characters
outside the alphabet (as the host Buffer does). -/
def base64Decode (s : String) : List Nat :=
  b64Groups (s.data.filterMap b64Val)

/-- Value of one hexadecimal digit, none otherwise. -/
def hexVal (c : Char) : Option Nat :=
  if '0' ≤ c ∧ c ≤ '9' then some (c.toNat - 48)
  else if 'a' ≤ c ∧ c ≤ 'f' then some (c.toNat - 87)
  else if 'A' ≤ c ∧ c ≤ 'F' then some (c.toNat - 55)
  else none

/-- Pair up hex-digit values into bytes. -/
def hexPairs : List Nat → List Nat
  | a :: b :: rest => (a * 16 + b) :: hexPairs rest
  | _ => []

/-- Hex-decode a string to bytes. -/
def hexDecode (s : String) : List Nat :=
  hexPairs (s.data.filterMap hexVal)

/-- UTF-8 bytes of one character. -/
def utf8EncodeCharNat (c : Char) : List Nat :=
  let n := c.toNat
  if n < 128 then [n]
  else if n < 2048 then [192 + n / 64, 128 + n % 64]
  else if n < 65536 then [224 + n / 4096, 128 + (n / 64) % 64, 128 + n % 64]
  else [240 + n / 262144, 128 + (n / 4096) % 64, 128 + (n / 64) % 64, 128 + n % 64]

/-- UTF-8 bytes of a string. -/
def utf8Bytes (s : String) : List Nat :=
  s.data.foldr (fun c acc => utf8EncodeCharNat c ++ acc) []

/-- Bytes under the ascii encoding: each code unit masked to 7 bits. -/
def asciiBytes (s : String) : List Nat :=
  s.data.map (fun c => c.toNat % 128)

/-- Bytes under the latin1/binary encoding: each code unit masked to 8
bits. -/
def latin1Bytes (s : String) : List Nat :=
  s.data.map (fun c => c.toNat % 256)

/-- Bytes under the little-endian UTF-16 encodings: each code unit as two
bytes, low byte first. -/
def utf16leBytes (s : String) : List Nat :=
  s.data.foldr (fun c acc => (c.toNat % 65536) % 256 :: (c.toNat % 65536) / 256 :: acc) []

/-- Lowercase an ASCII letter, leave any other character alone. -/
def lowerAscii (c : Char) : Char :=
  if 'A' ≤ c ∧ c ≤ 'Z' then Char.ofNat (c.toNat + 32) else c

/-- ASCII-lowercase a string (the case folding the host applies to
encoding names). -/
def strLower (s : String) : String :=
  String.mk (s.data.map lowerAscii)

/-- The binary-to-text encodings the host Buffer accepts (the model of
Node's `Buffer.isEncoding`, case-insensitive). -/
def supportedEncoding (encoding : String) : Bool :=
  let e := strLower encoding
  e == "base64" || e == "hex" || e == "utf8" || e == "utf-8" || e == "ascii" ||
    e == "latin1" || e == "binary" || e == "ucs2" || e == "ucs-2" ||
    e == "utf16le" || e == "utf-16le"

/-- The model of the host constructor `new Buffer(body, encoding)` at line
39 of the source: decodes `body` under `encoding` to raw bytes, or none
when the encoding tag is unknown — the case in which the host constructor
throws an "Unknown encoding" exception. -/
def bufferFrom (body encoding : String) : Option (List Nat) :=
  let e := strLower encoding
  if e == "base64" then some (base64Decode body)
  else if e == "hex" then some (hexDecode body)
  else if e == "utf8" || e == "utf-8" then some (utf8Bytes body)
  else if e == "ascii" then some (asciiBytes body)
  else if e == "latin1" || e == "binary" then some (latin1Bytes body)
  else if e == "ucs2" || e == "ucs-2" || e == "utf16le" || e == "utf-16le" then
    some (utf16leBytes body)
  else none

/-- Modelled from the spec: the external MIME lookup (`mime.extension`
from the mime-types package, an external collaborator per section 6 of the
spec) maps a content-type string to a filename extension or none when the
content type is unrecognized. A representative table of well-known
entries. -/
def mimeExtension (contentType : String) : Option String :=
  if contentType = "application/json" then some "json"
  else if contentType = "text/plain" then some "txt"
  else if contentType = "text/html" then some "html"
  else if contentType = "text/css" then some "css"
  else if contentType = "application/xml" then some "xml"
  else if contentType = "image/png" then some "png"
  else none

/-- The default extension the exporter derives at line 40 of the source:
`mime.extension(contentType) || ''`. -/
def extensionFor (contentType : String) : String :=
  (mimeExtension contentType).getD ""

/-- One observable side effect of the component on its host: a console
warning, the save dialog, a filesystem write (with its append flag), an
analytics track event, or a component state update (`this.setState` of
the response field). -/
inductive Effect where
  | warn (msg : String)
  | dialog (title buttonLabel filterName : String) (extensions : List String)
  | write (path : String) (bytes : List Nat) (append : Bool)
  | track (category action : String)
  | setStateResponse (response : Option Response)
deriving Repr, DecidableEq

/-- The host's answers to the exporter's two asynchronous calls: the path
the user chooses in the save dialog (none when the dialog is cancelled),
and the error `fs.writeFile` reports (none when the write succeeds). -/
structure ExportEnv where
  dialogResult : Option String
  writeError : Option String
deriving Repr, DecidableEq

/-- The body exporter `_handleDownloadResponseBody` (lines 31-66 of the
source), embedded as a function from the loaded response and the host's
answers to the effect trace it produces, paired with the exception it
throws (none on normal completion):
no loaded response → warn and return; Buffer construction with an unknown
encoding → throw before any other effect; then one save dialog seeded
with the derived extension; a falsy chosen path → track "Save Cancel";
otherwise one `fs.writeFile` (non-append) whose error → warn and track
"Save Failure", and whose success → track "Save Success". -/
def _handleDownloadResponseBody (response : Option Response) (env : ExportEnv) :
    List Effect × Option String :=
  match response with
  | none => ([Effect.warn "No response to download"], none)
  | some r =>
    match bufferFrom r.body r.encoding with
    | none => ([], some ("Unknown encoding: " ++ r.encoding))
    | some bodyBuffer =>
      let ext := extensionFor r.contentType
      let dialogEff := Effect.dialog "Save Response" "Save" "Download" [ext]
      match env.dialogResult with
      | none => ([dialogEff, Effect.track "Response" "Save Cancel"], none)
      | some filename =>
        if filename = "" then
          ([dialogEff, Effect.track "Response" "Save Cancel"], none)
        else
          match env.writeError with
          | some err =>
            ([dialogEff, Effect.write filename bodyBuffer false,
              Effect.warn ("Failed to save response body " ++ err),
              Effect.track "Response" "Save Failure"], none)
          | none =>
            ([dialogEff, Effect.write filename bodyBuffer false,
              Effect.track "Response" "Save Success"], none)

/-- Number of save-dialog interactions in a trace. -/
def countDialogs : List Effect → Nat
  | [] => 0
  | Effect.dialog _ _ _ _ :: rest => countDialogs rest + 1
  | _ :: rest => countDialogs rest

/-- Number of filesystem writes in a trace. -/
def countWrites : List Effect → Nat
  | [] => 0
  | Effect.write _ _ _ :: rest => countWrites rest + 1
  | _ :: rest => countWrites rest

/-- Number of analytics outcome notifications in a trace. -/
def countTracks : List Effect → Nat
  | [] => 0
  | Effect.track _ _ :: rest => countTracks rest + 1
  | _ :: rest => countTracks rest

/-- Number of component state updates in a trace. -/
def countSetStates : List Effect → Nat
  | [] => 0
  | Effect.setStateResponse _ :: rest => countSetStates rest + 1
  | _ :: rest => countSetStates rest

/-- Latest-created response of a list: none on the empty list, otherwise
an element whose `createdAt` is maximal. -/
def maxByCreated : List Response → Option Response
  | [] => none
  | r :: rest =>
    match maxByCreated rest with
    | none => some r
    | some best => if best.createdAt ≤ r.createdAt then some r else some best

/-- Modelled from the spec: `models.response.getLatestByParentId`
(the response-storage subsystem, repository code not under src/): queries
the stored responses for the most recently created one whose parent
request identifier equals the given id, or none if no such response
exists. The store is modelled as the list `db` of stored responses. -/
def getLatestByParentId (db : List Response) (parentId : String) : Option Response :=
  maxByCreated (db.filter (fun r => r.parentId = parentId))

/-- The value `_getResponse` (lines 22-29 of the source) stores into
`state.response`: null when no request is given, otherwise the latest
stored response for the request's id. -/
def _getResponse (db : List Response) (request : Option Request) : Option Response :=
  match request with
  | none => none
  | some req => getLatestByParentId db req._id

/-- The component's state relevant to the loader race: the request
currently held by the props, the displayed `state.response`, the
outstanding storage lookups (ticket number and the request id captured
when `_getResponse` started), and a fresh-ticket counter. -/
structure PaneState where
  activeRequest : Option Request
  response : Option Response
  pending : List (Nat × String)
  nextTicket : Nat
deriving Repr, DecidableEq

/-- An event of the loader's asynchronous life: new props arrive
(`componentWillReceiveProps` fires and calls `_getResponse`), or the
storage lookup behind an outstanding ticket resolves and the
continuation after the await runs. -/
inductive PaneEvent where
  | receiveProps (request : Option Request)
  | lookupResolves (ticket : Nat)
deriving Repr, DecidableEq

/-- One step of the component under an event, embedding lines 22-29 and
68-70 of the source. `receiveProps req` updates the active request and
runs `_getResponse` up to its await: a null request sets
`state.response` to null at once, otherwise the lookup for `req._id` is
started (a pending ticket). `lookupResolves t` runs the rest of
`_getResponse`: the resolved response is stored by `setState`
unconditionally — the source does not compare the captured request with
the currently active one. -/
def paneStep (db : List Response) (s : PaneState) : PaneEvent → PaneState
  | PaneEvent.receiveProps req =>
    match req with
    | none => { s with activeRequest := none, response := none }
    | some r =>
      { s with activeRequest := some r,
               pending := s.pending ++ [(s.nextTicket, r._id)],
               nextTicket := s.nextTicket + 1 }
  | PaneEvent.lookupResolves t =>
    match s.pending.find? (fun p => p.1 == t) with
    | none => s
    | some p =>
      { s with pending := s.pending.filter (fun q => q.1 != t),
               response := getLatestByParentId db p.2 }

/-- Run the component from a state through a schedule of events. -/
def paneRun (db : List Response) (s : PaneState) (events : List PaneEvent) : PaneState :=
  events.foldl (paneStep db) s

/-- The state of a freshly mounted component: `state = {response: null}`,
no props yet, no outstanding lookup. -/
def initPaneState : PaneState :=
  { activeRequest := none, response := none, pending := [], nextTicket := 0 }

/-- Modelled from the spec: the constant `PREVIEW_MODE_SOURCE` from
common/constants (repository code not under src/), the preview mode the
viewer is forced into for an error response (source view). -/
def PREVIEW_MODE_SOURCE : String := "source"

/-- The props `render` (lines 223-238 of the source) passes to the body
viewer, as far as they depend on the response's error field. -/
structure ViewerProps where
  previewMode : String
  body : String
  error : Bool
  updateFilterActive : Bool
deriving Repr, DecidableEq

/-- The body-viewer props computed at lines 223-238 of the source: an
error response (truthy error string) forces source preview mode,
substitutes the error text for the body, sets the error flag and
disables the filter callback. -/
def responseViewerProps (response : Response) (previewMode : String) : ViewerProps :=
  { previewMode := if strTruthy response.error then PREVIEW_MODE_SOURCE else previewMode
  , body := if strTruthy response.error then response.error.getD "" else response.body
  , error := strTruthy response.error
  , updateFilterActive := !strTruthy response.error }

/-- A concrete stored response used in witnesses: the base64 body
"SGVsbG8=" of the spec's property 6, stored for request "r1". -/
def helloResponse : Response :=
  { _id := "res_1", parentId := "r1", createdAt := 10, url := "http://example.com"
  , statusCode := 200, statusMessage := "OK", elapsedTime := 5, bytesRead := 5
  , body := "SGVsbG8=", encoding := "base64", contentType := "text/plain"
  , headers := [], error := none }

/-- A concrete stored response whose encoding tag is not a supported
binary-to-text encoding, used in witnesses. -/
def rot13Response : Response :=
  { helloResponse with _id := "res_2", body := "Uryyb", encoding := "rot13" }

/-- A concrete stored response carrying an error string, used in
witnesses. -/
def errorResponse : Response :=
  { helloResponse with _id := "res_3", error := some "Request timed out" }

/-- The latest-created response of a non-empty list exists. -/
theorem maxByCreated_ne_none (r : Response) (rest : List Response) :
    maxByCreated (r :: rest) ≠ none := by
  unfold maxByCreated
  cases maxByCreated rest with
  | none => simp
  | some best => by_cases h : best.createdAt ≤ r.createdAt <;> simp [h]

/-- The latest-created response is an element of the list. -/
theorem maxByCreated_mem : ∀ {l : List Response} {r : Response},
    maxByCreated l = some r → r ∈ l := by
  intro l
  induction l with
  | nil => intro r h; simp [maxByCreated] at h
  | cons x rest ih =>
    intro r h
    unfold maxByCreated at h
    cases hm : maxByCreated rest with
    | none =>
      rw [hm] at h
      simp at h
      simp [h]
    | some best =>
      rw [hm] at h
      by_cases hle : best.createdAt ≤ x.createdAt
      · simp [hle] at h
        simp [h]
      · simp [hle] at h
        exact List.mem_cons_of_mem x (h ▸ ih hm)

/-- The latest-created response has maximal creation time in its list. -/
theorem maxByCreated_max : ∀ {l : List Response} {r : Response},
    maxByCreated l = some r → ∀ x ∈ l, x.createdAt ≤ r.createdAt := by
  intro l
  induction l with
  | nil => intro r h; simp [maxByCreated] at h
  | cons y rest ih =>
    intro r h x hx
    unfold maxByCreated at h
    cases hm : maxByCreated rest with
    | none =>
      rw [hm] at h
      simp at h
      have hrest : rest = [] := by
        cases rest with
        | nil => rfl
        | cons a as => exact absurd hm (maxByCreated_ne_none a as)
      subst hrest
      simp at hx
      rw [hx, ← h]
    | some best =>
      rw [hm] at h
      rcases List.mem_cons.mp hx with hxy | hxrest
      · subst hxy
        by_cases hle : best.createdAt ≤ x.createdAt
        · simp [hle] at h
          rw [← h]
        · simp [hle] at h
          rw [← h]
          exact le_of_not_le hle
      · have hxb := ih hm x hxrest
        by_cases hle : best.createdAt ≤ y.createdAt
        · simp [hle] at h
          rw [← h]
          exact le_trans hxb hle
        · simp [hle] at h
          rw [← h]
          exact hxb

/-- The Buffer decode succeeds exactly on the supported encodings. -/
theorem bufferFrom_isSome_eq (body enc : String) :
    (bufferFrom body enc).isSome = supportedEncoding enc := by
  simp only [bufferFrom, supportedEncoding]
  split_ifs with h1 h2 h3 h4 h5 h6 <;> simp_all

/-- The Buffer decode of an unsupported encoding fails. -/
theorem bufferFrom_eq_none_of_unsupported (body enc : String)
    (h : supportedEncoding enc = false) : bufferFrom body enc = none := by
  have hs := bufferFrom_isSome_eq body enc
  rw [h] at hs
  cases hb : bufferFrom body enc with
  | none => rfl
  | some v => rw [hb] at hs; simp at hs

/-- Claim C1: for the loaded response with body "SGVsbG8=", encoding tag
"base64" and content-type "text/plain", and any non-empty chosen path,
the exporter decodes the body into the raw bytes of "Hello", writes
exactly those bytes to the chosen path as a single non-append overwrite,
and records the "Save Success" outcome when the write reports no error. -/
theorem c1_export_hello_success (path : String) (hpath : path ≠ "") :
    _handleDownloadResponseBody (some helloResponse) ⟨some path, none⟩ =
      ([Effect.dialog "Save Response" "Save" "Download" ["txt"],
        Effect.write path (utf8Bytes "Hello") false,
        Effect.track "Response" "Save Success"], none) ∧
    utf8Bytes "Hello" = [72, 101, 108, 108, 111] := by
  constructor
  · have hbuf : bufferFrom helloResponse.body helloResponse.encoding
        = some (utf8Bytes "Hello") := by decide
    have hext : extensionFor helloResponse.contentType = "txt" := by decide
    simp only [_handleDownloadResponseBody, hbuf, hext]
    simp [hpath]
  · decide

/-- Witness for C1 at the concrete path "save.txt". -/
theorem c1_export_hello_success_witness :
    ("save.txt" : String) ≠ "" ∧
    (_handleDownloadResponseBody (some helloResponse) ⟨some "save.txt", none⟩ =
      ([Effect.dialog "Save Response" "Save" "Download" ["txt"],
        Effect.write "save.txt" (utf8Bytes "Hello") false,
        Effect.track "Response" "Save Success"], none) ∧
     utf8Bytes "Hello" = [72, 101, 108, 108, 111]) :=
  ⟨by decide, c1_export_hello_success "save.txt" (by decide)⟩

/-- Claim C4: when the user cancels the save dialog (no destination
path), the exporter performs no filesystem write and records the
"Save Cancel" outcome, an effect distinct from the failure outcome. -/
theorem c4_export_cancel (r : Response) (env : ExportEnv) (buf : List Nat)
    (hbuf : bufferFrom r.body r.encoding = some buf)
    (hcancel : env.dialogResult = none) :
    _handleDownloadResponseBody (some r) env =
      ([Effect.dialog "Save Response" "Save" "Download" [extensionFor r.contentType],
        Effect.track "Response" "Save Cancel"], none) ∧
    countWrites (_handleDownloadResponseBody (some r) env).1 = 0 ∧
    Effect.track "Response" "Save Cancel" ≠ Effect.track "Response" "Save Failure" := by
  have h1 : _handleDownloadResponseBody (some r) env =
      ([Effect.dialog "Save Response" "Save" "Download" [extensionFor r.contentType],
        Effect.track "Response" "Save Cancel"], none) := by
    simp only [_handleDownloadResponseBody, hbuf, hcancel]
  exact ⟨h1, by rw [h1]; simp [countWrites], by decide⟩

/-- Witness for C4 at the hello response and a cancelled dialog. -/
theorem c4_export_cancel_witness :
    bufferFrom helloResponse.body helloResponse.encoding = some (utf8Bytes "Hello") ∧
    (_handleDownloadResponseBody (some helloResponse) ⟨none, none⟩ =
      ([Effect.dialog "Save Response" "Save" "Download"
          [extensionFor helloResponse.contentType],
        Effect.track "Response" "Save Cancel"], none) ∧
     countWrites (_handleDownloadResponseBody (some helloResponse) ⟨none, none⟩).1 = 0 ∧
     Effect.track "Response" "Save Cancel" ≠ Effect.track "Response" "Save Failure") :=
  ⟨by decide, c4_export_cancel helloResponse ⟨none, none⟩ (utf8Bytes "Hello") (by decide) rfl⟩

/-- Claim C5: when the filesystem write reports an I/O error, the
exporter records the distinct "Save Failure" outcome, retains the
underlying error in the warning it logs, completes without an uncaught
exception, and performs exactly one write (no retry). -/
theorem c5_export_write_failure (r : Response) (buf : List Nat) (path err : String)
    (hbuf : bufferFrom r.body r.encoding = some buf) (hpath : path ≠ "") :
    _handleDownloadResponseBody (some r) ⟨some path, some err⟩ =
      ([Effect.dialog "Save Response" "Save" "Download" [extensionFor r.contentType],
        Effect.write path buf false,
        Effect.warn ("Failed to save response body " ++ err),
        Effect.track "Response" "Save Failure"], none) ∧
    (_handleDownloadResponseBody (some r) ⟨some path, some err⟩).2 = none ∧
    countWrites (_handleDownloadResponseBody (some r) ⟨some path, some err⟩).1 = 1 := by
  have h1 : _handleDownloadResponseBody (some r) ⟨some path, some err⟩ =
      ([Effect.dialog "Save Response" "Save" "Download" [extensionFor r.contentType],
        Effect.write path buf false,
        Effect.warn ("Failed to save response body " ++ err),
        Effect.track "Response" "Save Failure"], none) := by
    simp only [_handleDownloadResponseBody, hbuf]
    simp [hpath]
  exact ⟨h1, by rw [h1], by rw [h1]; simp [countWrites]⟩

/-- Witness for C5 at the hello response, path "save.txt" and error
"EACCES". -/
theorem c5_export_write_failure_witness :
    bufferFrom helloResponse.body helloResponse.encoding = some (utf8Bytes "Hello") ∧
    ("save.txt" : String) ≠ "" ∧
    (_handleDownloadResponseBody (some helloResponse) ⟨some "save.txt", some "EACCES"⟩ =
      ([Effect.dialog "Save Response" "Save" "Download"
          [extensionFor helloResponse.contentType],
        Effect.write "save.txt" (utf8Bytes "Hello") false,
        Effect.warn ("Failed to save response body " ++ "EACCES"),
        Effect.track "Response" "Save Failure"], none) ∧
     (_handleDownloadResponseBody (some helloResponse)
        ⟨some "save.txt", some "EACCES"⟩).2 = none ∧
     countWrites (_handleDownloadResponseBody (some helloResponse)
        ⟨some "save.txt", some "EACCES"⟩).1 = 1) :=
  ⟨by decide, by decide,
    c5_export_write_failure helloResponse (utf8Bytes "Hello") "save.txt" "EACCES"
      (by decide) (by decide)⟩

/-- Claim C6: with no loaded response the exporter only logs a warning:
no dialog is shown, no write happens, and it returns normally. -/
theorem c6_export_no_response (env : ExportEnv) :
    _handleDownloadResponseBody none env = ([Effect.warn "No response to download"], none) ∧
    countDialogs (_handleDownloadResponseBody none env).1 = 0 ∧
    countWrites (_handleDownloadResponseBody none env).1 = 0 :=
  ⟨rfl, rfl, rfl⟩

/-- Claim C7: the default extension comes from the MIME lookup on the
content type: "application/json" yields the recognized JSON extension
"json", and any content type the lookup does not recognize yields the
empty extension. -/
theorem c7_default_extension :
    extensionFor "application/json" = "json" ∧
    (∀ contentType, mimeExtension contentType = none → extensionFor contentType = "") := by
  constructor
  · decide
  · intro ct h
    unfold extensionFor
    rw [h]
    rfl

/-- Witness for C7 at the unrecognized content type
"application/x-unknown". -/
theorem c7_default_extension_witness :
    mimeExtension "application/x-unknown" = none ∧
    extensionFor "application/x-unknown" = "" :=
  ⟨by decide, c7_default_extension.2 "application/x-unknown" (by decide)⟩

/-- Claim C2 (divergence shown on the code): with helloResponse stored
for request "r1", the schedule "props switch to r1, props switch to r2,
the lookup started for r1 resolves" leaves the component displaying
r1's response while r2 is the active request — the stale in-flight
lookup is applied, not discarded. -/
theorem c2_supersede_violated :
    (paneRun [helloResponse] initPaneState
        [PaneEvent.receiveProps (some ⟨"r1"⟩), PaneEvent.receiveProps (some ⟨"r2"⟩),
         PaneEvent.lookupResolves 0]).activeRequest = some ⟨"r2"⟩ ∧
    ((paneRun [helloResponse] initPaneState
        [PaneEvent.receiveProps (some ⟨"r1"⟩), PaneEvent.receiveProps (some ⟨"r2"⟩),
         PaneEvent.lookupResolves 0]).response.map Response.parentId) = some "r1" ∧
    ("r1" : String) ≠ "r2" :=
  ⟨by decide, by decide, by decide⟩

/-- Claim C3: the response loader: with no selected request it produces
null; otherwise it returns the most recently created stored response
whose parent request identifier equals the request's id, absent when no
stored response has that parent — in particular absent for every request
id with no stored response — and present as soon as one exists. -/
theorem c3_response_loader :
    (∀ db : List Response, _getResponse db none = none) ∧
    (∀ (db : List Response) (req : Request),
      _getResponse db (some req) = getLatestByParentId db req._id) ∧
    (∀ (db : List Response) (rid : String),
      (∀ r ∈ db, r.parentId ≠ rid) → getLatestByParentId db rid = none) ∧
    (∀ (db : List Response) (rid : String) (r : Response),
      getLatestByParentId db rid = some r →
        r ∈ db ∧ r.parentId = rid ∧
          ∀ x ∈ db, x.parentId = rid → x.createdAt ≤ r.createdAt) ∧
    (∀ (db : List Response) (rid : String) (r : Response),
      r ∈ db → r.parentId = rid → (getLatestByParentId db rid).isSome = true) := by
  refine ⟨fun db => rfl, fun db req => rfl, ?_, ?_, ?_⟩
  · intro db rid h
    unfold getLatestByParentId
    have hfil : db.filter (fun r => r.parentId = rid) = [] := by
      rw [List.filter_eq_nil_iff]
      intro a ha
      simp [h a ha]
    rw [hfil]
    rfl
  · intro db rid r h
    have hmem := maxByCreated_mem h
    have hmax := maxByCreated_max h
    rw [List.mem_filter] at hmem
    obtain ⟨hdb, hpid⟩ := hmem
    simp at hpid
    refine ⟨hdb, hpid, ?_⟩
    intro x hx hxpid
    exact hmax x (List.mem_filter.mpr ⟨hx, by simp [hxpid]⟩)
  · intro db rid r hmem hpid
    have hne : db.filter (fun r => r.parentId = rid) ≠ [] := by
      intro hnil
      have hr : r ∈ db.filter (fun r => r.parentId = rid) :=
        List.mem_filter.mpr ⟨hmem, by simp [hpid]⟩
      rw [hnil] at hr
      simp at hr
    unfold getLatestByParentId
    cases hl : db.filter (fun r => r.parentId = rid) with
    | nil => exact absurd hl hne
    | cons a as =>
      cases hm : maxByCreated (a :: as) with
      | none => exact absurd hm (maxByCreated_ne_none a as)
      | some v => rfl

/-- Witness for C3: the empty store yields absent, a store holding the
hello response for "r1" yields a present response. -/
theorem c3_response_loader_witness :
    getLatestByParentId [] "r1" = none ∧
    (getLatestByParentId [helloResponse] "r1").isSome = true :=
  ⟨c3_response_loader.2.2.1 [] "r1" (by simp),
   c3_response_loader.2.2.2.2 [helloResponse] "r1" helloResponse (by simp) rfl⟩

/-- Claim C8: for any loaded response whose decode succeeds, the
exporter's side effects are exactly one dialog interaction, at most one
filesystem write, exactly one outcome notification, no component state
update, and a normal return. -/
theorem c8_export_frame (r : Response) (env : ExportEnv) (buf : List Nat)
    (hbuf : bufferFrom r.body r.encoding = some buf) :
    countDialogs (_handleDownloadResponseBody (some r) env).1 = 1 ∧
    countWrites (_handleDownloadResponseBody (some r) env).1 ≤ 1 ∧
    countTracks (_handleDownloadResponseBody (some r) env).1 = 1 ∧
    countSetStates (_handleDownloadResponseBody (some r) env).1 = 0 ∧
    (_handleDownloadResponseBody (some r) env).2 = none := by
  obtain ⟨dr, we⟩ := env
  simp only [_handleDownloadResponseBody, hbuf]
  cases dr with
  | none => simp [countDialogs, countWrites, countTracks, countSetStates]
  | some fn =>
    by_cases hfn : fn = ""
    · simp [hfn, countDialogs, countWrites, countTracks, countSetStates]
    · cases we with
      | none => simp [hfn, countDialogs, countWrites, countTracks, countSetStates]
      | some err => simp [hfn, countDialogs, countWrites, countTracks, countSetStates]

/-- Witness for C8 at the hello response with a chosen path and a
successful write. -/
theorem c8_export_frame_witness :
    countDialogs (_handleDownloadResponseBody (some helloResponse)
      ⟨some "save.txt", none⟩).1 = 1 ∧
    countWrites (_handleDownloadResponseBody (some helloResponse)
      ⟨some "save.txt", none⟩).1 ≤ 1 ∧
    countTracks (_handleDownloadResponseBody (some helloResponse)
      ⟨some "save.txt", none⟩).1 = 1 ∧
    countSetStates (_handleDownloadResponseBody (some helloResponse)
      ⟨some "save.txt", none⟩).1 = 0 ∧
    (_handleDownloadResponseBody (some helloResponse) ⟨some "save.txt", none⟩).2 = none :=
  c8_export_frame helloResponse ⟨some "save.txt", none⟩ (utf8Bytes "Hello") (by decide)

/-- Claim C9: the decode step is total exactly on the supported
binary-to-text encodings: an unsupported encoding tag makes the Buffer
construction throw before any dialog or write effect (empty trace),
while a supported tag always decodes. -/
theorem c9_decode_totality :
    (∀ (r : Response) (env : ExportEnv), supportedEncoding r.encoding = false →
      _handleDownloadResponseBody (some r) env =
        ([], some ("Unknown encoding: " ++ r.encoding))) ∧
    (∀ body enc, supportedEncoding enc = true → (bufferFrom body enc).isSome = true) := by
  constructor
  · intro r env h
    have hb := bufferFrom_eq_none_of_unsupported r.body r.encoding h
    simp only [_handleDownloadResponseBody, hb]
  · intro body enc h
    rw [bufferFrom_isSome_eq, h]

/-- Witness for C9 at the rot13-tagged response and the base64 body. -/
theorem c9_decode_totality_witness :
    supportedEncoding rot13Response.encoding = false ∧
    _handleDownloadResponseBody (some rot13Response) ⟨some "save.txt", none⟩ =
      ([], some ("Unknown encoding: " ++ rot13Response.encoding)) ∧
    supportedEncoding "base64" = true ∧
    (bufferFrom "SGVsbG8=" "base64").isSome = true :=
  ⟨by decide,
   c9_decode_totality.1 rot13Response ⟨some "save.txt", none⟩ (by decide),
   by decide,
   c9_decode_totality.2 "SGVsbG8=" "base64" (by decide)⟩

/-- Claim C10: the exporter's behavior is independent of the response's
error field, while the body viewer substitutes the error text for the
body, forces source preview mode and sets the error flag when the error
string is present (truthy). -/
theorem c10_error_field_independence :
    (∀ (r : Response) (e : Option String) (env : ExportEnv),
      _handleDownloadResponseBody (some { r with error := e }) env =
        _handleDownloadResponseBody (some r) env) ∧
    (∀ (r : Response) (previewMode : String), strTruthy r.error = true →
      (responseViewerProps r previewMode).body = r.error.getD "" ∧
      (responseViewerProps r previewMode).previewMode = PREVIEW_MODE_SOURCE ∧
      (responseViewerProps r previewMode).error = true) := by
  constructor
  · intro r e env
    cases r
    rfl
  · intro r pm h
    simp [responseViewerProps, h]

/-- Witness for C10 at the hello response with an error string added,
and the error response shown in the viewer. -/
theorem c10_error_field_independence_witness :
    _handleDownloadResponseBody
        (some { helloResponse with error := some "Request timed out" })
        ⟨some "save.txt", none⟩ =
      _handleDownloadResponseBody (some helloResponse) ⟨some "save.txt", none⟩ ∧
    strTruthy errorResponse.error = true ∧
    ((responseViewerProps errorResponse "friendly").body = errorResponse.error.getD "" ∧
     (responseViewerProps errorResponse "friendly").previewMode = PREVIEW_MODE_SOURCE ∧
     (responseViewerProps errorResponse "friendly").error = true) :=
  ⟨c10_error_field_independence.1 helloResponse (some "Request timed out")
      ⟨some "save.txt", none⟩,
   by decide,
   c10_error_field_independence.2 errorResponse "friendly" (by decide)⟩
